import Mathlib

/-!
Verification development for the route-mapper repository
(`src/app.py` and `src/app_web.py`).

The repository is a geocode → route → synthesize-stations → render pipeline
with two near-duplicate implementations: `app_web.py` (Flask only) and
`app.py` (desktop/web hybrid).  We give a shallow embedding:

* Coordinates are rational pairs `(latitude, longitude)`.
* `random.uniform(a, b)` draws are modelled by an explicit draw function
  `rand : ℕ → ℚ → ℚ → ℚ`; `UniformOK rand` says every draw lies between its
  two arguments, which is the contract of `random.uniform`.
* The geocoding and routing adapters perform network I/O, so the HTTP
  handlers are parameterized over the adapter behaviour
  (`Geocoder`, `Router`), and the adapters themselves are embedded
  separately as total functions over an explicit provider-outcome type
  (`GeoOutcome`, `HttpOutcome`); a Python exception escaping the adapter is
  modelled by `Except.error`.
* Each handler returns, alongside its response, the list of outbound
  provider calls it performs (`Ev`), mirroring the call sites in the source;
  this makes "never calls the router" / "still geocodes the end address"
  claims statable.
-/

set_option maxHeartbeats 1000000

/-- A coordinate pair `(latitude, longitude)`. -/
abbrev Coord : Type := ℚ × ℚ

/-- `rand k a b` is the value of the `k`-th `random.uniform(a, b)` draw made
by one call of the station synthesizer. -/
abbrev Draws : Type := ℕ → ℚ → ℚ → ℚ

/-- Contract of `random.uniform(a, b)`: the result lies between `a` and `b`
(in either order of the endpoints). -/
def UniformOK (rand : Draws) : Prop :=
  ∀ k a b, min a b ≤ rand k a b ∧ rand k a b ≤ max a b

/-- Abstract behaviour of the geocoder adapter as seen by the handlers:
`get_coordinates` returns `(lat, lon)` or `None`. -/
abbrev Geocoder : Type := String → Option Coord

/-- Abstract behaviour of the router adapter as seen by the handlers:
`get_route` returns a triple `(route_coords, duration, distance)`, where a
failure is `(None, None, None)` and the route may also be an empty list. -/
abbrev Router : Type := Coord → Coord → Option (List Coord) × Option ℚ × Option ℚ

/-- The query parameters of a request: `start`, `end`, `num_stations`,
each present or absent. -/
structure Args where
  startParam : Option String
  endParam : Option String
  numStationsParam : Option String
deriving DecidableEq

/-- Python `str.strip()` on a character list: drop leading and trailing
whitespace.  (Defined over `List Char` by structural recursion so that it
evaluates inside the kernel, unlike `String.trim`.) -/
def pyStripChars (cs : List Char) : List Char :=
  (((cs.dropWhile Char.isWhitespace).reverse).dropWhile Char.isWhitespace).reverse

/-- Python `str.strip()`. -/
def pyStrip (s : String) : String :=
  String.mk (pyStripChars s.data)

/-- `request.args.get("start", "").strip()`. -/
def startArg (args : Args) : String :=
  pyStrip (args.startParam.getD "")

/-- `request.args.get("end", "").strip()`. -/
def endArg (args : Args) : String :=
  pyStrip (args.endParam.getD "")

/-- Decimal value of a digit list, accumulator style. -/
def digitsVal : List Char → Nat → Nat
  | [], acc => acc
  | c :: cs, acc => digitsVal cs (acc * 10 + (c.toNat - 48))

/-- Python `int(s)` on a string: strips surrounding whitespace, accepts an
optional sign followed by one or more decimal digits, and fails
(`ValueError`, modelled as `none`) otherwise. -/
def pyInt (s : String) : Option Int :=
  match pyStripChars s.data with
  | [] => none
  | '-' :: rest =>
    if rest ≠ [] ∧ rest.all Char.isDigit then some (-(digitsVal rest 0 : Int)) else none
  | '+' :: rest =>
    if rest ≠ [] ∧ rest.all Char.isDigit then some (digitsVal rest 0 : Int) else none
  | cs =>
    if cs.all Char.isDigit then some (digitsVal cs 0 : Int) else none

/-- `int(request.args.get("num_stations", 3))` wrapped in
`try ... except ValueError: num_stations = 3`. -/
def numStationsArg (args : Args) : Int :=
  match args.numStationsParam with
  | none => 3
  | some s =>
    match pyInt s with
    | some k => k
    | none => 3

/-- An outbound provider call performed by a handler. -/
inductive Ev where
  | geocode (address : String)
  | route
deriving DecidableEq

/-- The JSON body returned by `/api/route` on success. -/
structure RouteJson where
  start : Coord
  stop : Coord
  route : List Coord
  stations : List Coord
  duration_seconds : Option ℚ
  distance_meters : Option ℚ
deriving DecidableEq

/-- An `/api/route` response: an error with an HTTP status and message, or a
success JSON body (HTTP 200). -/
inductive ApiResp where
  | err (status : Nat) (msg : String)
  | ok (body : RouteJson)
deriving DecidableEq

/-- A `/map` response: an error with an HTTP status and message, or the
rendered page, abstracted to the data drawn on the map. -/
inductive MapResp where
  | err (status : Nat) (msg : String)
  | page (start stop : Coord) (route stations : List Coord)
deriving DecidableEq

/-- The longitude correction factor `max(0.3, abs(lat)/90.0 + 0.3)` of
`app_web.py`. -/
def lonScaleWeb (lat : ℚ) : ℚ :=
  max (3/10) (|lat| / 90 + 3/10)

/-- The longitude correction factor `max(0.5, abs(lat) / 90.0 + 0.5)` of
`app.py`. -/
def lonScaleApp (lat : ℚ) : ℚ :=
  max (1/2) (|lat| / 90 + 1/2)

/-- The anchor point `route_coords[point_idx]` of `app_web.py`, where
`placement_points = min(5, len(route_coords))` and
`point_idx = min(i, placement_points - 1)`. -/
def anchorWeb (route_coords : List Coord) (i : ℕ) : Coord :=
  route_coords.getD (min i (min 5 route_coords.length - 1)) (0, 0)

/-- The anchor point `route_coords[min(i, len(route_coords) - 1)]` of
`app.py`. -/
def anchorApp (route_coords : List Coord) (i : ℕ) : Coord :=
  route_coords.getD (min i (route_coords.length - 1)) (0, 0)

namespace AppWeb

/-- `app_web.py::generate_stations_near_start` (source defaults:
`num_stations=3`, `max_distance_meters=40`; call sites pass them
explicitly here).  `rand` supplies the `random.uniform` draws: station `i`
uses draw `2*i` for latitude and draw `2*i+1` for longitude. -/
def generate_stations_near_start (rand : Draws) (route_coords : List Coord)
    (num_stations : Int) (max_distance_meters : ℚ) : List Coord :=
  if route_coords = [] then []
  else
    (List.range num_stations.toNat).map (fun i =>
      let point := anchorWeb route_coords i
      (point.1 + rand (2 * i) (-(max_distance_meters / 111000)) (max_distance_meters / 111000),
       point.2 + rand (2 * i + 1)
         (-(max_distance_meters / (111000 * lonScaleWeb point.1)))
         (max_distance_meters / (111000 * lonScaleWeb point.1))))

/-- `app_web.py::api_route` (`GET /api/route`), parameterized over the
adapter behaviour; also returns the outbound provider calls made. -/
def api_route (geo : Geocoder) (router : Router) (rand : Draws) (args : Args) :
    ApiResp × List Ev :=
  if startArg args = "" ∨ endArg args = "" then
    (ApiResp.err 400 "Se requieren direcciones de inicio y fin", [])
  else
    match geo (startArg args) with
    | none =>
      (ApiResp.err 404 ("No se pudieron encontrar coordenadas para: " ++ startArg args),
       [Ev.geocode (startArg args), Ev.geocode (endArg args)])
    | some start_coords =>
      match geo (endArg args) with
      | none =>
        (ApiResp.err 404 ("No se pudieron encontrar coordenadas para: " ++ endArg args),
         [Ev.geocode (startArg args), Ev.geocode (endArg args)])
      | some end_coords =>
        match router start_coords end_coords with
        | (route_coords, duration, distance) =>
          match route_coords with
          | none =>
            (ApiResp.err 500 "No se pudo calcular la ruta entre las ubicaciones especificadas",
             [Ev.geocode (startArg args), Ev.geocode (endArg args), Ev.route])
          | some [] =>
            (ApiResp.err 500 "No se pudo calcular la ruta entre las ubicaciones especificadas",
             [Ev.geocode (startArg args), Ev.geocode (endArg args), Ev.route])
          | some (c :: rest) =>
            (ApiResp.ok
              ⟨start_coords, end_coords, c :: rest,
               generate_stations_near_start rand (c :: rest) (numStationsArg args) 40,
               duration, distance⟩,
             [Ev.geocode (startArg args), Ev.geocode (endArg args), Ev.route])

/-- `app_web.py::map_view` (`GET /map`), parameterized over the adapter
behaviour; the folium rendering is abstracted to the data drawn on the map. -/
def map_view (geo : Geocoder) (router : Router) (rand : Draws) (args : Args) :
    MapResp × List Ev :=
  if startArg args = "" ∨ endArg args = "" then
    (MapResp.err 400 "Se requieren direcciones de inicio y fin", [])
  else
    match geo (startArg args), geo (endArg args) with
    | some start_coords, some end_coords =>
      match router start_coords end_coords with
      | (route_coords, _, _) =>
        match route_coords with
        | none =>
          (MapResp.err 500 "No se pudo calcular la ruta",
           [Ev.geocode (startArg args), Ev.geocode (endArg args), Ev.route])
        | some [] =>
          (MapResp.err 500 "No se pudo calcular la ruta",
           [Ev.geocode (startArg args), Ev.geocode (endArg args), Ev.route])
        | some (c :: rest) =>
          (MapResp.page start_coords end_coords (c :: rest)
            (generate_stations_near_start rand (c :: rest) (numStationsArg args) 40),
           [Ev.geocode (startArg args), Ev.geocode (endArg args), Ev.route])
    | _, _ =>
      (MapResp.err 404 "No se pudieron encontrar las ubicaciones",
       [Ev.geocode (startArg args), Ev.geocode (endArg args)])

end AppWeb

namespace App

/-- `app.py::generate_stations_near_start` (source defaults:
`num_stations=3`, `max_distance_meters=30`; call sites pass them explicitly
here).  Unlike `app_web.py`, the anchor index is `min(i, len(route) - 1)`
(no 5-point lookahead window) and the longitude scale floor is `0.5`. -/
def generate_stations_near_start (rand : Draws) (route_coords : List Coord)
    (num_stations : Int) (max_distance_meters : ℚ) : List Coord :=
  if route_coords = [] then []
  else
    (List.range num_stations.toNat).map (fun i =>
      let point := anchorApp route_coords i
      (point.1 + rand (2 * i) (-(max_distance_meters / 111000)) (max_distance_meters / 111000),
       point.2 + rand (2 * i + 1)
         (-(max_distance_meters / (111000 * lonScaleApp point.1)))
         (max_distance_meters / (111000 * lonScaleApp point.1))))

/-- `app.py::api_route_web` (`GET /api/route` of the hybrid file); identical
control flow to `app_web.py::api_route`, but stations are synthesized with
`app.py`'s routine and its default `max_distance_meters=30`. -/
def api_route_web (geo : Geocoder) (router : Router) (rand : Draws) (args : Args) :
    ApiResp × List Ev :=
  if startArg args = "" ∨ endArg args = "" then
    (ApiResp.err 400 "Se requieren direcciones de inicio y fin", [])
  else
    match geo (startArg args) with
    | none =>
      (ApiResp.err 404 ("No se pudieron encontrar coordenadas para: " ++ startArg args),
       [Ev.geocode (startArg args), Ev.geocode (endArg args)])
    | some start_coords =>
      match geo (endArg args) with
      | none =>
        (ApiResp.err 404 ("No se pudieron encontrar coordenadas para: " ++ endArg args),
         [Ev.geocode (startArg args), Ev.geocode (endArg args)])
      | some end_coords =>
        match router start_coords end_coords with
        | (route_coords, duration, distance) =>
          match route_coords with
          | none =>
            (ApiResp.err 500 "No se pudo calcular la ruta entre las ubicaciones especificadas",
             [Ev.geocode (startArg args), Ev.geocode (endArg args), Ev.route])
          | some [] =>
            (ApiResp.err 500 "No se pudo calcular la ruta entre las ubicaciones especificadas",
             [Ev.geocode (startArg args), Ev.geocode (endArg args), Ev.route])
          | some (c :: rest) =>
            (ApiResp.ok
              ⟨start_coords, end_coords, c :: rest,
               generate_stations_near_start rand (c :: rest) (numStationsArg args) 30,
               duration, distance⟩,
             [Ev.geocode (startArg args), Ev.geocode (endArg args), Ev.route])

end App

/-- Outcome of one call to the geocoding provider
(`geopy`'s `geolocator.geocode(address)`): a match, no match, or one of the
exception classes the call can raise. -/
inductive GeoOutcome where
  | found (c : Coord)
  | notFound
  | timedOut
  | serviceError
  | otherError
deriving DecidableEq

/-- One route object of an OSRM response body.  `geometry` models
`route["geometry"]["coordinates"]` as longitude-first pairs, absent when
either key is missing; `duration` and `distance` model the corresponding
keys, absent when missing. -/
structure OsrmRoute where
  geometry : Option (List (ℚ × ℚ))
  duration : Option ℚ
  distance : Option ℚ
deriving DecidableEq

/-- An OSRM response body that parsed as JSON: the `routes` key, absent or a
list of route objects. -/
structure OsrmBody where
  routes : Option (List OsrmRoute)
deriving DecidableEq

/-- Outcome of the OSRM HTTP call (`requests.get` + `raise_for_status` +
`json()`): a `requests.RequestException` (timeout, connection failure,
non-success status, undecodable JSON), some other exception from the call,
or a parsed body. -/
inductive HttpOutcome where
  | requestError
  | otherFailure
  | body (b : OsrmBody)
deriving DecidableEq

namespace AppWeb

/-- `app_web.py::get_coordinates`: `except (GeocoderTimedOut,
GeocoderServiceError)` returns `None`, and a final `except Exception` also
returns `None`, so no outcome raises. -/
def get_coordinates (o : GeoOutcome) : Except String (Option Coord) :=
  match o with
  | GeoOutcome.found c => Except.ok (some c)
  | GeoOutcome.notFound => Except.ok none
  | GeoOutcome.timedOut => Except.ok none
  | GeoOutcome.serviceError => Except.ok none
  | GeoOutcome.otherError => Except.ok none

/-- `app_web.py::get_route`: fails fast on absent coordinates; catches
`requests.RequestException` and, with a final `except Exception`, every
other exception (including the `KeyError` from a body whose first route
lacks `geometry`); reads `duration`/`distance` with `.get`.  The returned
point sequence is converted from longitude-first to latitude-first order. -/
def get_route (start_coords end_coords : Option Coord) (o : HttpOutcome) :
    Except String (Option (List Coord) × Option ℚ × Option ℚ) :=
  match start_coords, end_coords with
  | some _, some _ =>
    match o with
    | HttpOutcome.requestError => Except.ok (none, none, none)
    | HttpOutcome.otherFailure => Except.ok (none, none, none)
    | HttpOutcome.body b =>
      match b.routes with
      | some (r :: _) =>
        match r.geometry with
        | none => Except.ok (none, none, none)
        | some cs =>
          Except.ok (some (cs.map (fun c => (c.2, c.1))), r.duration, r.distance)
      | some [] => Except.ok (none, none, none)
      | none => Except.ok (none, none, none)
  | _, _ => Except.ok (none, none, none)

end AppWeb

namespace App

/-- `app.py::get_coordinates`: catches only `GeocoderTimedOut` and
`GeocoderServiceError`; any other exception from the provider call
propagates to the caller. -/
def get_coordinates (o : GeoOutcome) : Except String (Option Coord) :=
  match o with
  | GeoOutcome.found c => Except.ok (some c)
  | GeoOutcome.notFound => Except.ok none
  | GeoOutcome.timedOut => Except.ok none
  | GeoOutcome.serviceError => Except.ok none
  | GeoOutcome.otherError => Except.error "uncaught geocoding exception"

/-- `app.py::get_route`: fails fast on absent coordinates; catches only
`requests.RequestException`, and indexes `routes[0]["geometry"]`,
`["duration"]`, `["distance"]` directly, so a parsed body whose first route
lacks one of those keys raises `KeyError` to the caller. -/
def get_route (start_coords end_coords : Option Coord) (o : HttpOutcome) :
    Except String (Option (List Coord) × Option ℚ × Option ℚ) :=
  match start_coords, end_coords with
  | some _, some _ =>
    match o with
    | HttpOutcome.requestError => Except.ok (none, none, none)
    | HttpOutcome.otherFailure => Except.error "uncaught exception from the routing call"
    | HttpOutcome.body b =>
      match b.routes with
      | some (r :: _) =>
        match r.geometry with
        | none => Except.error "KeyError: geometry"
        | some cs =>
          match r.duration with
          | none => Except.error "KeyError: duration"
          | some dur =>
            match r.distance with
            | none => Except.error "KeyError: distance"
            | some dist =>
              Except.ok (some (cs.map (fun c => (c.2, c.1))), some dur, some dist)
      | some [] => Except.ok (none, none, none)
      | none => Except.ok (none, none, none)
  | _, _ => Except.ok (none, none, none)

end App

/-- The provider outcomes on which `app.py::get_route` returns instead of
raising: a `requests.RequestException`, a body without usable routes, or a
body whose first route carries all three of `geometry`, `duration`,
`distance`. -/
def RouterBodySafe : HttpOutcome → Prop
  | HttpOutcome.requestError => True
  | HttpOutcome.otherFailure => False
  | HttpOutcome.body b =>
    match b.routes with
    | none => True
    | some [] => True
    | some (r :: _) => r.geometry ≠ none ∧ r.duration ≠ none ∧ r.distance ≠ none

/-- A concrete draw function satisfying `UniformOK`: always returns the
midpoint of the requested interval. -/
def midDraw : Draws := fun _ a b => (a + b) / 2

/-- The stubbed geocoder of the round-trip scenario: maps `"A"` to
`(10, 10)` and `"B"` to `(10, 11)`. -/
def geoStubAB : Geocoder := fun a =>
  if a = "A" then some (10, 10) else if a = "B" then some (10, 11) else none

/-- The stubbed router of the round-trip scenario: a two-point straight
route with duration `600` and distance `5000`. -/
def routerStubAB : Router := fun _ _ =>
  (some [(10, 10), (10, 11)], some 600, some 5000)

/-- A router stub that returns an empty route list. -/
def routerStubEmpty : Router := fun _ _ => (some [], none, none)

/-- A geocoder stub that resolves no address. -/
def geoStubNone : Geocoder := fun _ => none

/-- The query parameters of the round-trip scenario:
`start=A&end=B&num_stations=2`. -/
def argsAB : Args := ⟨some "A", some "B", some "2"⟩

/-- The same request, with the `num_stations` parameter replaced by the
default count `3`. -/
def argsWithDefaultNS (args : Args) : Args :=
  ⟨args.startParam, args.endParam, some "3"⟩

/- ## Helper lemmas -/

/-- The midpoint draw satisfies the `random.uniform` contract. -/
theorem midDraw_uniform : UniformOK midDraw := by
  intro k a b
  unfold midDraw
  rcases le_total a b with h | h
  · rw [min_eq_left h, max_eq_right h]
    constructor <;> linarith
  · rw [min_eq_right h, max_eq_left h]
    constructor <;> linarith

/-- A draw from a symmetric interval `[-c, c]` with `0 ≤ c` has absolute
value at most `c`. -/
theorem uniform_abs_le (rand : Draws) (hrand : UniformOK rand) (k : ℕ) (c : ℚ)
    (hc : 0 ≤ c) : |rand k (-c) c| ≤ c := by
  have h := hrand k (-c) c
  rw [min_eq_left (neg_le_self hc), max_eq_right (neg_le_self hc)] at h
  exact abs_le.mpr h

theorem lonScaleWeb_pos (lat : ℚ) : 0 < lonScaleWeb lat :=
  lt_of_lt_of_le (by norm_num) (le_max_left _ _)

theorem lonScaleApp_pos (lat : ℚ) : 0 < lonScaleApp lat :=
  lt_of_lt_of_le (by norm_num) (le_max_left _ _)

/-- Number of stations returned by `app_web.py`'s synthesizer on a non-empty
route. -/
theorem genWeb_length (rand : Draws) (route_coords : List Coord) (n : Int)
    (m : ℚ) (h : route_coords ≠ []) :
    (AppWeb.generate_stations_near_start rand route_coords n m).length = n.toNat := by
  simp [AppWeb.generate_stations_near_start, h]

/-- Number of stations returned by `app.py`'s synthesizer on a non-empty
route. -/
theorem genApp_length (rand : Draws) (route_coords : List Coord) (n : Int)
    (m : ℚ) (h : route_coords ≠ []) :
    (App.generate_stations_near_start rand route_coords n m).length = n.toNat := by
  simp [App.generate_stations_near_start, h]

/-- Station `i` of `app_web.py`'s synthesizer, in closed form. -/
theorem genWeb_getD (rand : Draws) (route_coords : List Coord) (n : Int)
    (m : ℚ) (h : route_coords ≠ []) (i : ℕ) (hi : i < n.toNat) :
    (AppWeb.generate_stations_near_start rand route_coords n m).getD i (0, 0) =
      ((anchorWeb route_coords i).1 +
         rand (2 * i) (-(m / 111000)) (m / 111000),
       (anchorWeb route_coords i).2 +
         rand (2 * i + 1)
           (-(m / (111000 * lonScaleWeb (anchorWeb route_coords i).1)))
           (m / (111000 * lonScaleWeb (anchorWeb route_coords i).1))) := by
  unfold AppWeb.generate_stations_near_start
  rw [if_neg h, List.getD_eq_getElem?_getD, List.getElem?_map, List.getElem?_range hi]
  rfl

/-- Station `i` of `app.py`'s synthesizer, in closed form. -/
theorem genApp_getD (rand : Draws) (route_coords : List Coord) (n : Int)
    (m : ℚ) (h : route_coords ≠ []) (i : ℕ) (hi : i < n.toNat) :
    (App.generate_stations_near_start rand route_coords n m).getD i (0, 0) =
      ((anchorApp route_coords i).1 +
         rand (2 * i) (-(m / 111000)) (m / 111000),
       (anchorApp route_coords i).2 +
         rand (2 * i + 1)
           (-(m / (111000 * lonScaleApp (anchorApp route_coords i).1)))
           (m / (111000 * lonScaleApp (anchorApp route_coords i).1))) := by
  unfold App.generate_stations_near_start
  rw [if_neg h, List.getD_eq_getElem?_getD, List.getElem?_map, List.getElem?_range hi]
  rfl

/-- Anatomy of a successful `/api/route` response of `app_web.py`: it can
only arise from non-empty addresses, two successful geocodes, and a
non-empty route, and its fields come from those calls. -/
theorem api_route_ok_inv_web (geo : Geocoder) (router : Router) (rand : Draws)
    (args : Args) (body : RouteJson) (evs : List Ev)
    (h : AppWeb.api_route geo router rand args = (ApiResp.ok body, evs)) :
    startArg args ≠ "" ∧ endArg args ≠ "" ∧
    geo (startArg args) = some body.start ∧ geo (endArg args) = some body.stop ∧
    (router body.start body.stop).1 = some body.route ∧ body.route ≠ [] ∧
    body.stations =
      AppWeb.generate_stations_near_start rand body.route (numStationsArg args) 40 ∧
    evs = [Ev.geocode (startArg args), Ev.geocode (endArg args), Ev.route] := by
  unfold AppWeb.api_route at h
  split at h
  · simp at h
  · rename_i hif
    push_neg at hif
    split at h
    · simp at h
    · rename_i sc hgs
      split at h
      · simp at h
      · rename_i ec hge
        split at h
        rename_i rc dur dist hrt
        split at h
        · simp at h
        · simp at h
        · rename_i c rest hrc
          simp only [Prod.mk.injEq, ApiResp.ok.injEq] at h
          obtain ⟨hb, hev⟩ := h
          subst hb
          subst hev
          refine ⟨hif.1, hif.2, hgs, hge, ?_, ?_, rfl, rfl⟩
          · rw [hrt]
          · simp

/-- Anatomy of a successful `/api/route` response of `app.py`. -/
theorem api_route_ok_inv_app (geo : Geocoder) (router : Router) (rand : Draws)
    (args : Args) (body : RouteJson) (evs : List Ev)
    (h : App.api_route_web geo router rand args = (ApiResp.ok body, evs)) :
    startArg args ≠ "" ∧ endArg args ≠ "" ∧
    geo (startArg args) = some body.start ∧ geo (endArg args) = some body.stop ∧
    (router body.start body.stop).1 = some body.route ∧ body.route ≠ [] ∧
    body.stations =
      App.generate_stations_near_start rand body.route (numStationsArg args) 30 ∧
    evs = [Ev.geocode (startArg args), Ev.geocode (endArg args), Ev.route] := by
  unfold App.api_route_web at h
  split at h
  · simp at h
  · rename_i hif
    push_neg at hif
    split at h
    · simp at h
    · rename_i sc hgs
      split at h
      · simp at h
      · rename_i ec hge
        split at h
        rename_i rc dur dist hrt
        split at h
        · simp at h
        · simp at h
        · rename_i c rest hrc
          simp only [Prod.mk.injEq, ApiResp.ok.injEq] at h
          obtain ⟨hb, hev⟩ := h
          subst hb
          subst hev
          refine ⟨hif.1, hif.2, hgs, hge, ?_, ?_, rfl, rfl⟩
          · rw [hrt]
          · simp

/-- `app_web.py::api_route` on an empty start or end address. -/
theorem api_route_400_web (geo : Geocoder) (router : Router) (rand : Draws)
    (args : Args) (h : startArg args = "" ∨ endArg args = "") :
    AppWeb.api_route geo router rand args =
      (ApiResp.err 400 "Se requieren direcciones de inicio y fin", []) := by
  unfold AppWeb.api_route
  rw [if_pos h]

/-- `app.py::api_route_web` on an empty start or end address. -/
theorem api_route_400_app (geo : Geocoder) (router : Router) (rand : Draws)
    (args : Args) (h : startArg args = "" ∨ endArg args = "") :
    App.api_route_web geo router rand args =
      (ApiResp.err 400 "Se requieren direcciones de inicio y fin", []) := by
  unfold App.api_route_web
  rw [if_pos h]

/-- `app_web.py::map_view` on an empty start or end address. -/
theorem map_view_400 (geo : Geocoder) (router : Router) (rand : Draws)
    (args : Args) (h : startArg args = "" ∨ endArg args = "") :
    AppWeb.map_view geo router rand args =
      (MapResp.err 400 "Se requieren direcciones de inicio y fin", []) := by
  unfold AppWeb.map_view
  rw [if_pos h]

/-- `app_web.py::api_route` when geocoding the start address fails. -/
theorem api_route_start_fail_web (geo : Geocoder) (router : Router) (rand : Draws)
    (args : Args) (hs : startArg args ≠ "") (he : endArg args ≠ "")
    (hg : geo (startArg args) = none) :
    AppWeb.api_route geo router rand args =
      (ApiResp.err 404 ("No se pudieron encontrar coordenadas para: " ++ startArg args),
       [Ev.geocode (startArg args), Ev.geocode (endArg args)]) := by
  unfold AppWeb.api_route
  rw [if_neg (by simp [hs, he]), hg]

/-- `app.py::api_route_web` when geocoding the start address fails. -/
theorem api_route_start_fail_app (geo : Geocoder) (router : Router) (rand : Draws)
    (args : Args) (hs : startArg args ≠ "") (he : endArg args ≠ "")
    (hg : geo (startArg args) = none) :
    App.api_route_web geo router rand args =
      (ApiResp.err 404 ("No se pudieron encontrar coordenadas para: " ++ startArg args),
       [Ev.geocode (startArg args), Ev.geocode (endArg args)]) := by
  unfold App.api_route_web
  rw [if_neg (by simp [hs, he]), hg]

/-- `app_web.py::api_route` when the start address geocodes but the end
address does not. -/
theorem api_route_end_fail_web (geo : Geocoder) (router : Router) (rand : Draws)
    (args : Args) (sc : Coord) (hs : startArg args ≠ "") (he : endArg args ≠ "")
    (hg : geo (startArg args) = some sc) (hge : geo (endArg args) = none) :
    AppWeb.api_route geo router rand args =
      (ApiResp.err 404 ("No se pudieron encontrar coordenadas para: " ++ endArg args),
       [Ev.geocode (startArg args), Ev.geocode (endArg args)]) := by
  unfold AppWeb.api_route
  rw [if_neg (by simp [hs, he]), hg]
  simp [hge]

/-- `app.py::api_route_web` when the start address geocodes but the end
address does not. -/
theorem api_route_end_fail_app (geo : Geocoder) (router : Router) (rand : Draws)
    (args : Args) (sc : Coord) (hs : startArg args ≠ "") (he : endArg args ≠ "")
    (hg : geo (startArg args) = some sc) (hge : geo (endArg args) = none) :
    App.api_route_web geo router rand args =
      (ApiResp.err 404 ("No se pudieron encontrar coordenadas para: " ++ endArg args),
       [Ev.geocode (startArg args), Ev.geocode (endArg args)]) := by
  unfold App.api_route_web
  rw [if_neg (by simp [hs, he]), hg]
  simp [hge]

/-- `app_web.py::map_view` when geocoding the start address fails. -/
theorem map_view_start_fail (geo : Geocoder) (router : Router) (rand : Draws)
    (args : Args) (hs : startArg args ≠ "") (he : endArg args ≠ "")
    (hg : geo (startArg args) = none) :
    AppWeb.map_view geo router rand args =
      (MapResp.err 404 "No se pudieron encontrar las ubicaciones",
       [Ev.geocode (startArg args), Ev.geocode (endArg args)]) := by
  unfold AppWeb.map_view
  rw [if_neg (by simp [hs, he]), hg]

/-- `app_web.py::api_route` when both addresses geocode but the router
returns an absent or empty route. -/
theorem api_route_500_web (geo : Geocoder) (router : Router) (rand : Draws)
    (args : Args) (sc ec : Coord) (hs : startArg args ≠ "") (he : endArg args ≠ "")
    (hg : geo (startArg args) = some sc) (hge : geo (endArg args) = some ec)
    (hr : (router sc ec).1 = none ∨ (router sc ec).1 = some []) :
    AppWeb.api_route geo router rand args =
      (ApiResp.err 500 "No se pudo calcular la ruta entre las ubicaciones especificadas",
       [Ev.geocode (startArg args), Ev.geocode (endArg args), Ev.route]) := by
  unfold AppWeb.api_route
  rw [if_neg (by simp [hs, he]), hg]
  rcases hrt : router sc ec with ⟨rc, dur, dist⟩
  rw [hrt] at hr
  rcases hr with hr | hr <;> simp only at hr <;> simp [hge, hrt, hr]

/-- `app.py::api_route_web` when both addresses geocode but the router
returns an absent or empty route. -/
theorem api_route_500_app (geo : Geocoder) (router : Router) (rand : Draws)
    (args : Args) (sc ec : Coord) (hs : startArg args ≠ "") (he : endArg args ≠ "")
    (hg : geo (startArg args) = some sc) (hge : geo (endArg args) = some ec)
    (hr : (router sc ec).1 = none ∨ (router sc ec).1 = some []) :
    App.api_route_web geo router rand args =
      (ApiResp.err 500 "No se pudo calcular la ruta entre las ubicaciones especificadas",
       [Ev.geocode (startArg args), Ev.geocode (endArg args), Ev.route]) := by
  unfold App.api_route_web
  rw [if_neg (by simp [hs, he]), hg]
  rcases hrt : router sc ec with ⟨rc, dur, dist⟩
  rw [hrt] at hr
  rcases hr with hr | hr <;> simp only at hr <;> simp [hge, hrt, hr]

/- ## Claim theorems -/

/-- C9: for every draw function, count `n` and offset bound `m`, the station
synthesizer of either file returns the empty sequence on an empty route. -/
theorem C9_empty_route (rand : Draws) (n : Int) (m : ℚ) :
    AppWeb.generate_stations_near_start rand [] n m = [] ∧
    App.generate_stations_near_start rand [] n m = [] :=
  ⟨rfl, rfl⟩

/-- C1 (amended): for every non-empty route and count `n ≥ 0` the
synthesizer of either file returns exactly `n` stations; and for every
`maxOffsetMeters ≥ 0`, station `i` differs from its anchor route point by at
most `m/111000` degrees in latitude and at most `m` converted to degrees
through the latitude-dependent scale factor in longitude. -/
theorem C1_count_and_offsets (rand : Draws) (hrand : UniformOK rand)
    (route_coords : List Coord) (hroute : route_coords ≠ []) (n : Int) (hn : 0 ≤ n) :
    (∀ m : ℚ,
      ((AppWeb.generate_stations_near_start rand route_coords n m).length : Int) = n ∧
      ((App.generate_stations_near_start rand route_coords n m).length : Int) = n) ∧
    (∀ m : ℚ, 0 ≤ m → ∀ i : ℕ, i < n.toNat →
      (|((AppWeb.generate_stations_near_start rand route_coords n m).getD i (0, 0)).1 -
          (anchorWeb route_coords i).1| ≤ m / 111000 ∧
       |((AppWeb.generate_stations_near_start rand route_coords n m).getD i (0, 0)).2 -
          (anchorWeb route_coords i).2| ≤
         m / (111000 * lonScaleWeb (anchorWeb route_coords i).1)) ∧
      (|((App.generate_stations_near_start rand route_coords n m).getD i (0, 0)).1 -
          (anchorApp route_coords i).1| ≤ m / 111000 ∧
       |((App.generate_stations_near_start rand route_coords n m).getD i (0, 0)).2 -
          (anchorApp route_coords i).2| ≤
         m / (111000 * lonScaleApp (anchorApp route_coords i).1))) := by
  constructor
  · intro m
    rw [genWeb_length rand route_coords n m hroute, genApp_length rand route_coords n m hroute]
    exact ⟨Int.toNat_of_nonneg hn, Int.toNat_of_nonneg hn⟩
  · intro m hm i hi
    have hlw := lonScaleWeb_pos (anchorWeb route_coords i).1
    have hla := lonScaleApp_pos (anchorApp route_coords i).1
    have h1 : (0 : ℚ) ≤ m / 111000 := by positivity
    have h2 : (0 : ℚ) ≤ m / (111000 * lonScaleWeb (anchorWeb route_coords i).1) := by positivity
    have h3 : (0 : ℚ) ≤ m / (111000 * lonScaleApp (anchorApp route_coords i).1) := by positivity
    rw [genWeb_getD rand route_coords n m hroute i hi,
        genApp_getD rand route_coords n m hroute i hi]
    refine ⟨⟨?_, ?_⟩, ?_, ?_⟩ <;> simp only [add_sub_cancel_left]
    · exact uniform_abs_le rand hrand _ _ h1
    · exact uniform_abs_le rand hrand _ _ h2
    · exact uniform_abs_le rand hrand _ _ h1
    · exact uniform_abs_le rand hrand _ _ h3

/-- C1 (counterexample): with a negative `maxOffsetMeters`, the latitude
offset bound of the claim fails: a valid uniform draw gives a station at
distance `0` from its anchor, while the claimed bound is `-1` degrees. -/
theorem C1_counterexample :
    UniformOK midDraw ∧
    ¬ (|((AppWeb.generate_stations_near_start midDraw
            [((0 : ℚ), (0 : ℚ))] 1 (-111000)).getD 0 (0, 0)).1 -
         (anchorWeb [((0 : ℚ), (0 : ℚ))] 0).1| ≤ (-111000 : ℚ) / 111000) := by
  refine ⟨midDraw_uniform, ?_⟩
  rw [genWeb_getD midDraw [((0 : ℚ), (0 : ℚ))] 1 (-111000)
        (List.cons_ne_nil _ _) 0 (by decide)]
  norm_num [midDraw, anchorWeb]

/-- C1 (witness): the amended theorem applied at a one-point route and
count 1. -/
theorem C1_witness :
    ((AppWeb.generate_stations_near_start midDraw [((0 : ℚ), (0 : ℚ))] 1 111000).length : Int) = 1 :=
  ((C1_count_and_offsets midDraw midDraw_uniform [((0 : ℚ), (0 : ℚ))]
      (List.cons_ne_nil _ _) 1 (by decide)).1 111000).1

/-- C8: station `i` of the synthesizer is its anchor route point
`route[min(i, lastUsableIndex)]` plus a bounded jitter, where
`lastUsableIndex` is `min(5, len(route)) - 1` in `app_web.py` and
`len(route) - 1` in `app.py`; and the anchor is constant (the final usable
anchor is reused) once `i` reaches the end of the lookahead window. -/
theorem C8_anchor_indexing (rand : Draws) (hrand : UniformOK rand)
    (route_coords : List Coord) (hroute : route_coords ≠ []) (n : Int) (m : ℚ)
    (hm : 0 ≤ m) (i : ℕ) (hi : i < n.toNat) :
    (∃ dlat dlon : ℚ,
       (AppWeb.generate_stations_near_start rand route_coords n m).getD i (0, 0) =
         ((anchorWeb route_coords i).1 + dlat, (anchorWeb route_coords i).2 + dlon) ∧
       |dlat| ≤ m / 111000 ∧
       |dlon| ≤ m / (111000 * lonScaleWeb (anchorWeb route_coords i).1)) ∧
    (∃ dlat dlon : ℚ,
       (App.generate_stations_near_start rand route_coords n m).getD i (0, 0) =
         ((anchorApp route_coords i).1 + dlat, (anchorApp route_coords i).2 + dlon) ∧
       |dlat| ≤ m / 111000 ∧
       |dlon| ≤ m / (111000 * lonScaleApp (anchorApp route_coords i).1)) ∧
    (∀ j k : ℕ, min 5 route_coords.length - 1 ≤ j → min 5 route_coords.length - 1 ≤ k →
       anchorWeb route_coords j = anchorWeb route_coords k) ∧
    (∀ j k : ℕ, route_coords.length - 1 ≤ j → route_coords.length - 1 ≤ k →
       anchorApp route_coords j = anchorApp route_coords k) := by
  have hlw := lonScaleWeb_pos (anchorWeb route_coords i).1
  have hla := lonScaleApp_pos (anchorApp route_coords i).1
  have h1 : (0 : ℚ) ≤ m / 111000 := by positivity
  have h2 : (0 : ℚ) ≤ m / (111000 * lonScaleWeb (anchorWeb route_coords i).1) := by positivity
  have h3 : (0 : ℚ) ≤ m / (111000 * lonScaleApp (anchorApp route_coords i).1) := by positivity
  refine ⟨⟨_, _, genWeb_getD rand route_coords n m hroute i hi, ?_, ?_⟩,
          ⟨_, _, genApp_getD rand route_coords n m hroute i hi, ?_, ?_⟩, ?_, ?_⟩
  · exact uniform_abs_le rand hrand _ _ h1
  · exact uniform_abs_le rand hrand _ _ h2
  · exact uniform_abs_le rand hrand _ _ h1
  · exact uniform_abs_le rand hrand _ _ h3
  · intro j k hj hk
    simp [anchorWeb, min_eq_right hj, min_eq_right hk]
  · intro j k hj hk
    simp [anchorApp, min_eq_right hj, min_eq_right hk]

/-- C8 (witness): the theorem applied at a one-point route, count 1,
offset bound 111. -/
theorem C8_witness :
    ∃ dlat dlon : ℚ,
      (AppWeb.generate_stations_near_start midDraw [((0 : ℚ), (0 : ℚ))] 1 111).getD 0 (0, 0) =
        ((anchorWeb [((0 : ℚ), (0 : ℚ))] 0).1 + dlat,
         (anchorWeb [((0 : ℚ), (0 : ℚ))] 0).2 + dlon) ∧
      |dlat| ≤ 111 / 111000 ∧
      |dlon| ≤ 111 / (111000 * lonScaleWeb (anchorWeb [((0 : ℚ), (0 : ℚ))] 0).1) :=
  (C8_anchor_indexing midDraw midDraw_uniform [((0 : ℚ), (0 : ℚ))]
      (List.cons_ne_nil _ _) 1 111 (by norm_num) 0 (by decide)).1

/-- C2: round-trip scenario.  With the stubbed geocoder `A → (10,10)`,
`B → (10,11)` and the stubbed two-point router with duration 600 and
distance 5000, `GET /api/route?start=A&end=B&num_stations=2` returns a
success body with `start = (10,10)`, `end = (10,11)`, exactly 2 stations,
`duration_seconds = 600` and `distance_meters = 5000`, in both files. -/
theorem C2_round_trip (rand : Draws) :
    (AppWeb.api_route geoStubAB routerStubAB rand argsAB =
       (ApiResp.ok ⟨(10, 10), (10, 11), [(10, 10), (10, 11)],
          AppWeb.generate_stations_near_start rand [(10, 10), (10, 11)] 2 40,
          some 600, some 5000⟩,
        [Ev.geocode "A", Ev.geocode "B", Ev.route]) ∧
     (AppWeb.generate_stations_near_start rand [(10, 10), (10, 11)] 2 40).length = 2) ∧
    (App.api_route_web geoStubAB routerStubAB rand argsAB =
       (ApiResp.ok ⟨(10, 10), (10, 11), [(10, 10), (10, 11)],
          App.generate_stations_near_start rand [(10, 10), (10, 11)] 2 30,
          some 600, some 5000⟩,
        [Ev.geocode "A", Ev.geocode "B", Ev.route]) ∧
     (App.generate_stations_near_start rand [(10, 10), (10, 11)] 2 30).length = 2) := by
  refine ⟨⟨rfl, ?_⟩, rfl, ?_⟩
  · rw [genWeb_length rand _ 2 40 (List.cons_ne_nil _ _)]
    rfl
  · rw [genApp_length rand _ 2 30 (List.cons_ne_nil _ _)]
    rfl

/-- C3: a success JSON body exists only when both addresses are non-empty,
both geocodes succeed, and the router returns a non-empty point list; and
whenever both geocodes succeed but the router yields an absent or empty
route, the handlers answer HTTP 500 (`Failed(no_route)`). -/
theorem C3_route_only_on_success (geo : Geocoder) (router : Router) (rand : Draws)
    (args : Args) :
    (∀ body evs, AppWeb.api_route geo router rand args = (ApiResp.ok body, evs) →
       startArg args ≠ "" ∧ endArg args ≠ "" ∧
       geo (startArg args) = some body.start ∧ geo (endArg args) = some body.stop ∧
       (router body.start body.stop).1 = some body.route ∧ body.route ≠ []) ∧
    (∀ body evs, App.api_route_web geo router rand args = (ApiResp.ok body, evs) →
       startArg args ≠ "" ∧ endArg args ≠ "" ∧
       geo (startArg args) = some body.start ∧ geo (endArg args) = some body.stop ∧
       (router body.start body.stop).1 = some body.route ∧ body.route ≠ []) ∧
    (∀ sc ec : Coord, startArg args ≠ "" → endArg args ≠ "" →
       geo (startArg args) = some sc → geo (endArg args) = some ec →
       (router sc ec).1 = none ∨ (router sc ec).1 = some [] →
       (AppWeb.api_route geo router rand args).1 =
         ApiResp.err 500 "No se pudo calcular la ruta entre las ubicaciones especificadas" ∧
       (App.api_route_web geo router rand args).1 =
         ApiResp.err 500 "No se pudo calcular la ruta entre las ubicaciones especificadas") := by
  refine ⟨?_, ?_, ?_⟩
  · intro body evs h
    obtain ⟨h1, h2, h3, h4, h5, h6, -, -⟩ := api_route_ok_inv_web geo router rand args body evs h
    exact ⟨h1, h2, h3, h4, h5, h6⟩
  · intro body evs h
    obtain ⟨h1, h2, h3, h4, h5, h6, -, -⟩ := api_route_ok_inv_app geo router rand args body evs h
    exact ⟨h1, h2, h3, h4, h5, h6⟩
  · intro sc ec hs he hgs hge hr
    constructor
    · rw [api_route_500_web geo router rand args sc ec hs he hgs hge hr]
    · rw [api_route_500_app geo router rand args sc ec hs he hgs hge hr]

/-- C3 (witness): the theorem applied to the stub geocoder and a router
returning an empty route list. -/
theorem C3_witness :
    (AppWeb.api_route geoStubAB routerStubEmpty midDraw argsAB).1 =
      ApiResp.err 500 "No se pudo calcular la ruta entre las ubicaciones especificadas" ∧
    (App.api_route_web geoStubAB routerStubEmpty midDraw argsAB).1 =
      ApiResp.err 500 "No se pudo calcular la ruta entre las ubicaciones especificadas" :=
  (C3_route_only_on_success geoStubAB routerStubEmpty midDraw argsAB).2.2 (10, 10) (10, 11)
    (by decide) (by decide) rfl rfl (Or.inr rfl)

/-- C5: if the geocoder returns absent for the start address (or for the
end address after the start address resolved), both `/api/route` handlers
answer HTTP 404 naming that address, and the router is never invoked. -/
theorem C5_geocode_fail_404 (geo : Geocoder) (router : Router) (rand : Draws)
    (args : Args) (hs : startArg args ≠ "") (he : endArg args ≠ "") :
    (geo (startArg args) = none →
       AppWeb.api_route geo router rand args =
         (ApiResp.err 404 ("No se pudieron encontrar coordenadas para: " ++ startArg args),
          [Ev.geocode (startArg args), Ev.geocode (endArg args)]) ∧
       App.api_route_web geo router rand args =
         (ApiResp.err 404 ("No se pudieron encontrar coordenadas para: " ++ startArg args),
          [Ev.geocode (startArg args), Ev.geocode (endArg args)]) ∧
       Ev.route ∉ (AppWeb.api_route geo router rand args).2 ∧
       Ev.route ∉ (App.api_route_web geo router rand args).2) ∧
    (∀ sc : Coord, geo (startArg args) = some sc → geo (endArg args) = none →
       AppWeb.api_route geo router rand args =
         (ApiResp.err 404 ("No se pudieron encontrar coordenadas para: " ++ endArg args),
          [Ev.geocode (startArg args), Ev.geocode (endArg args)]) ∧
       App.api_route_web geo router rand args =
         (ApiResp.err 404 ("No se pudieron encontrar coordenadas para: " ++ endArg args),
          [Ev.geocode (startArg args), Ev.geocode (endArg args)]) ∧
       Ev.route ∉ (AppWeb.api_route geo router rand args).2 ∧
       Ev.route ∉ (App.api_route_web geo router rand args).2) := by
  constructor
  · intro hg
    have h1 := api_route_start_fail_web geo router rand args hs he hg
    have h2 := api_route_start_fail_app geo router rand args hs he hg
    refine ⟨h1, h2, ?_, ?_⟩ <;> simp [h1, h2]
  · intro sc hg hge
    have h1 := api_route_end_fail_web geo router rand args sc hs he hg hge
    have h2 := api_route_end_fail_app geo router rand args sc hs he hg hge
    refine ⟨h1, h2, ?_, ?_⟩ <;> simp [h1, h2]

/-- C5 (witness): the theorem applied to a geocoder that resolves nothing. -/
theorem C5_witness :
    AppWeb.api_route geoStubNone routerStubAB midDraw argsAB =
      (ApiResp.err 404 ("No se pudieron encontrar coordenadas para: " ++ startArg argsAB),
       [Ev.geocode (startArg argsAB), Ev.geocode (endArg argsAB)]) :=
  ((C5_geocode_fail_404 geoStubNone routerStubAB midDraw argsAB
      (by decide) (by decide)).1 rfl).1

/-- C6: on an empty or missing start or end address, all three handlers
return HTTP 400 and make no outbound provider call. -/
theorem C6_missing_input_400 (geo : Geocoder) (router : Router) (rand : Draws)
    (args : Args) (h : startArg args = "" ∨ endArg args = "") :
    AppWeb.api_route geo router rand args =
      (ApiResp.err 400 "Se requieren direcciones de inicio y fin", []) ∧
    App.api_route_web geo router rand args =
      (ApiResp.err 400 "Se requieren direcciones de inicio y fin", []) ∧
    AppWeb.map_view geo router rand args =
      (MapResp.err 400 "Se requieren direcciones de inicio y fin", []) :=
  ⟨api_route_400_web geo router rand args h, api_route_400_app geo router rand args h,
   map_view_400 geo router rand args h⟩

/-- C6 (witness): the theorem applied to a request with a missing start
parameter. -/
theorem C6_witness :
    AppWeb.api_route geoStubAB routerStubAB midDraw ⟨none, some "B", none⟩ =
      (ApiResp.err 400 "Se requieren direcciones de inicio y fin", []) :=
  (C6_missing_input_400 geoStubAB routerStubAB midDraw ⟨none, some "B", none⟩ (Or.inl rfl)).1

/-- C7 (amended): a malformed `num_stations` parameter makes the handlers
use the default station count 3 — the response is identical to the same
request with `num_stations=3`, so the malformed parameter never itself
fails the request, and a successful response carries exactly 3 stations.
(The request can still fail for unrelated reasons, see the
counterexample.) -/
theorem C7_malformed_num_stations (geo : Geocoder) (router : Router) (rand : Draws)
    (args : Args) (s : String) (hs : args.numStationsParam = some s)
    (hmal : pyInt s = none) :
    numStationsArg args = 3 ∧
    AppWeb.api_route geo router rand args =
      AppWeb.api_route geo router rand (argsWithDefaultNS args) ∧
    App.api_route_web geo router rand args =
      App.api_route_web geo router rand (argsWithDefaultNS args) ∧
    AppWeb.map_view geo router rand args =
      AppWeb.map_view geo router rand (argsWithDefaultNS args) ∧
    (∀ body evs, AppWeb.api_route geo router rand args = (ApiResp.ok body, evs) →
       body.stations.length = 3) ∧
    (∀ body evs, App.api_route_web geo router rand args = (ApiResp.ok body, evs) →
       body.stations.length = 3) := by
  have h3 : numStationsArg args = 3 := by
    simp only [numStationsArg, hs, hmal]
  have h3d : numStationsArg (argsWithDefaultNS args) = 3 := rfl
  have hsa : startArg (argsWithDefaultNS args) = startArg args := rfl
  have hea : endArg (argsWithDefaultNS args) = endArg args := rfl
  refine ⟨h3, ?_, ?_, ?_, ?_, ?_⟩
  · unfold AppWeb.api_route
    simp only [hsa, hea, h3, h3d]
  · unfold App.api_route_web
    simp only [hsa, hea, h3, h3d]
  · unfold AppWeb.map_view
    simp only [hsa, hea, h3, h3d]
  · intro body evs h
    obtain ⟨-, -, -, -, -, h6, h7, -⟩ := api_route_ok_inv_web geo router rand args body evs h
    rw [h7, genWeb_length rand body.route (numStationsArg args) 40 h6, h3]
    rfl
  · intro body evs h
    obtain ⟨-, -, -, -, -, h6, h7, -⟩ := api_route_ok_inv_app geo router rand args body evs h
    rw [h7, genApp_length rand body.route (numStationsArg args) 30 h6, h3]
    rfl

/-- C7 (counterexample): a request whose `num_stations` is malformed can
still fail — here with HTTP 400 for an empty start address — so "the
request succeeds" does not hold of every request with malformed
`num_stations`. -/
theorem C7_counterexample :
    pyInt "abc" = none ∧
    AppWeb.api_route geoStubAB routerStubAB midDraw ⟨some "", some "B", some "abc"⟩ =
      (ApiResp.err 400 "Se requieren direcciones de inicio y fin", []) :=
  ⟨rfl, rfl⟩

/-- C7 (witness): the amended theorem applied to a well-formed request with
malformed `num_stations`. -/
theorem C7_witness :
    AppWeb.api_route geoStubAB routerStubAB midDraw ⟨some "A", some "B", some "xy"⟩ =
      AppWeb.api_route geoStubAB routerStubAB midDraw
        (argsWithDefaultNS ⟨some "A", some "B", some "xy"⟩) :=
  (C7_malformed_num_stations geoStubAB routerStubAB midDraw ⟨some "A", some "B", some "xy"⟩
      "xy" rfl rfl).2.1

/-- C10: when geocoding the start address fails, the handlers still perform
the geocoding call for the end address before returning the 404
address-not-found failure, in `/api/route` of both files and in `/map`. -/
theorem C10_end_geocode_not_skipped (geo : Geocoder) (router : Router) (rand : Draws)
    (args : Args) (hs : startArg args ≠ "") (he : endArg args ≠ "")
    (hg : geo (startArg args) = none) :
    ((AppWeb.api_route geo router rand args).1 =
       ApiResp.err 404 ("No se pudieron encontrar coordenadas para: " ++ startArg args) ∧
     Ev.geocode (endArg args) ∈ (AppWeb.api_route geo router rand args).2) ∧
    ((App.api_route_web geo router rand args).1 =
       ApiResp.err 404 ("No se pudieron encontrar coordenadas para: " ++ startArg args) ∧
     Ev.geocode (endArg args) ∈ (App.api_route_web geo router rand args).2) ∧
    ((AppWeb.map_view geo router rand args).1 =
       MapResp.err 404 "No se pudieron encontrar las ubicaciones" ∧
     Ev.geocode (endArg args) ∈ (AppWeb.map_view geo router rand args).2) := by
  have h1 := api_route_start_fail_web geo router rand args hs he hg
  have h2 := api_route_start_fail_app geo router rand args hs he hg
  have h3 := map_view_start_fail geo router rand args hs he hg
  refine ⟨⟨?_, ?_⟩, ⟨?_, ?_⟩, ⟨?_, ?_⟩⟩ <;> simp [h1, h2, h3]

/-- C10 (witness): the theorem applied to a geocoder that resolves
nothing. -/
theorem C10_witness :
    Ev.geocode (endArg argsAB) ∈ (AppWeb.map_view geoStubNone routerStubAB midDraw argsAB).2 :=
  (C10_end_geocode_not_skipped geoStubNone routerStubAB midDraw argsAB
      (by decide) (by decide) rfl).2.2.2

/-- C4 (amended): the `app_web.py` adapters catch every provider-level
exception and never raise; the `app.py` adapters catch only
`GeocoderTimedOut`/`GeocoderServiceError` (geocoder) and
`requests.RequestException` (router), so `app.py::get_coordinates` raises
exactly on other exceptions, and `app.py::get_route` (called with both
coordinates present) returns without raising exactly on a
`RequestException` or a body whose first route, if any, carries all of
`geometry`, `duration`, `distance`. -/
theorem C4_adapter_exception_handling :
    (∀ o : GeoOutcome, ∃ r, AppWeb.get_coordinates o = Except.ok r) ∧
    (∀ (sc ec : Option Coord) (o : HttpOutcome),
       ∃ r, AppWeb.get_route sc ec o = Except.ok r) ∧
    (∀ o : GeoOutcome,
       (∃ r, App.get_coordinates o = Except.ok r) ↔ o ≠ GeoOutcome.otherError) ∧
    (∀ (sc ec : Coord) (o : HttpOutcome),
       (∃ r, App.get_route (some sc) (some ec) o = Except.ok r) ↔ RouterBodySafe o) := by
  refine ⟨?_, ?_, ?_, ?_⟩
  · intro o
    cases o <;> exact ⟨_, rfl⟩
  · intro sc ec o
    cases sc with
    | none => exact ⟨_, rfl⟩
    | some s =>
      cases ec with
      | none => exact ⟨_, rfl⟩
      | some e =>
        cases o with
        | requestError => exact ⟨_, rfl⟩
        | otherFailure => exact ⟨_, rfl⟩
        | body b =>
          obtain ⟨routes⟩ := b
          cases routes with
          | none => exact ⟨_, rfl⟩
          | some l =>
            cases l with
            | nil => exact ⟨_, rfl⟩
            | cons r t =>
              obtain ⟨g, d, di⟩ := r
              cases g <;> exact ⟨_, rfl⟩
  · intro o
    cases o <;> simp [App.get_coordinates]
  · intro sc ec o
    cases o with
    | requestError => simp [App.get_route, RouterBodySafe]
    | otherFailure => simp [App.get_route, RouterBodySafe]
    | body b =>
      obtain ⟨routes⟩ := b
      cases routes with
      | none => simp [App.get_route, RouterBodySafe]
      | some l =>
        cases l with
        | nil => simp [App.get_route, RouterBodySafe]
        | cons r t =>
          obtain ⟨g, d, di⟩ := r
          cases g <;> cases d <;> cases di <;> simp [App.get_route, RouterBodySafe]

/-- C4 (counterexample): on a provider body `{"routes": [{}]}` — valid JSON,
malformed for the expected schema — `app.py::get_route` raises a `KeyError`
to its caller instead of returning an absent result, while
`app_web.py::get_route` catches it. -/
theorem C4_counterexample :
    App.get_route (some ((0 : ℚ), (0 : ℚ))) (some ((1 : ℚ), (1 : ℚ)))
        (HttpOutcome.body ⟨some [⟨none, none, none⟩]⟩) =
      Except.error "KeyError: geometry" ∧
    AppWeb.get_route (some ((0 : ℚ), (0 : ℚ))) (some ((1 : ℚ), (1 : ℚ)))
        (HttpOutcome.body ⟨some [⟨none, none, none⟩]⟩) =
      Except.ok (none, none, none) :=
  ⟨rfl, rfl⟩

/-- C4 (witness): the amended theorem applied at concrete outcomes. -/
theorem C4_witness :
    (∃ r, AppWeb.get_coordinates GeoOutcome.timedOut = Except.ok r) ∧
    (∃ r, App.get_coordinates GeoOutcome.notFound = Except.ok r) ∧
    (∃ r, App.get_route (some ((0 : ℚ), (0 : ℚ))) (some ((1 : ℚ), (1 : ℚ)))
            HttpOutcome.requestError = Except.ok r) :=
  ⟨C4_adapter_exception_handling.1 GeoOutcome.timedOut,
   (C4_adapter_exception_handling.2.2.1 GeoOutcome.notFound).mpr (by decide),
   (C4_adapter_exception_handling.2.2.2 (0, 0) (1, 1) HttpOutcome.requestError).mpr trivial⟩
